import Mathlib

/-!
Shallow embedding of `generate-maps.py`: a CLI that resolves an API key from
one of two secret stores, fetches a driving route, renders a static map image,
and writes a one-page PDF summary.  Pure data flow is embedded as total Lean
functions; the external world (HTTP endpoints, secret stores, image decoding,
file writes) is an explicit environment of response functions, and the
observable side effects of a run are recorded as an event trace.
-/

namespace GenMaps

/-! ### Character-level string helpers (structural, so that concrete runs
reduce inside the kernel) -/

/-- Python `str.lower()` (ASCII case folding, which is all the script needs). -/
def strLower (s : String) : String := String.mk (s.toList.map Char.toLower)

/-- Python `str.strip()`: remove leading and trailing whitespace. -/
def pyStrip (s : String) : String :=
  String.mk
    (((s.toList.dropWhile Char.isWhitespace).reverse.dropWhile Char.isWhitespace).reverse)

/-- Split a character list at every occurrence of `sep`, keeping empty
pieces, as Python `str.split(sep)` does. -/
def splitOnChar (sep : Char) : List Char → List (List Char)
  | [] => [[]]
  | c :: rest =>
    let r := splitOnChar sep rest
    if c = sep then [] :: r
    else
      match r with
      | [] => [[c]]
      | h :: t => (c :: h) :: t

/-! ### Python `pathlib` fragment used by `main` (suffix logic) -/

/-- Python `PurePath.suffix` restricted to a file name (final path component):
the text from the last dot onward, provided that dot is neither the first nor
the last character of the name; otherwise the empty string. -/
def pySuffix (name : String) : String :=
  let cs := name.toList
  let t := cs.reverse.takeWhile (fun c => c ≠ '.')
  if 0 < t.length ∧ t.length + 2 ≤ cs.length then String.mk ('.' :: t.reverse) else ""

/-- Python `PurePath.with_suffix` on a file name: drop the old suffix (if
any, counted in characters as the Python slice does) from the name and append
the new one. -/
def pyWithSuffix (name : String) (suffix : String) : String :=
  let old := pySuffix name
  if old = "" then name ++ suffix
  else String.mk (name.toList.take (name.toList.length - old.toList.length)) ++ suffix

/-- A parsed POSIX pure path: whether it is absolute, plus its components
(empty and "." components dropped, as `pathlib` does). -/
structure PurePath where
  absolute : Bool
  parts : List String
deriving DecidableEq

/-- Parse a path string the way `pathlib.PurePosixPath` does (modulo the
leading double-slash corner case, which no claim touches). -/
def parsePath (s : String) : PurePath :=
  let absolute : Bool :=
    match s.toList with
    | '/' :: _ => true
    | _ => false
  let comps := (splitOnChar '/' s.toList).map String.mk
  ⟨absolute, comps.filter (fun c => !(c == "" || c == "."))⟩

/-- The final component of the path, or the empty string if there is none. -/
def PurePath.name (p : PurePath) : String := p.parts.getLast?.getD ""

/-- Python `Path.suffix`. -/
def PurePath.suffix (p : PurePath) : String := pySuffix p.name

/-- Python `Path.with_suffix`. -/
def PurePath.withSuffix (p : PurePath) (s : String) : PurePath :=
  ⟨p.absolute, p.parts.dropLast ++ [pyWithSuffix p.name s]⟩

/-- Python `str(Path)`. -/
def PurePath.render (p : PurePath) : String :=
  if p.absolute then "/" ++ String.intercalate "/" p.parts
  else if p.parts = [] then "." else String.intercalate "/" p.parts

/-- Lines 181-185 of `main`: if the (non-empty) output filename does not have
a `.pdf` suffix (case-insensitively), coerce it with `with_suffix(".pdf")` and
print a notice.  Returns the effective path and the list of printed notices. -/
def validateOutput (f : String) : String × List String :=
  let p := parsePath f
  if strLower p.suffix ≠ ".pdf" then
    let f2 := (p.withSuffix ".pdf").render
    (f2, ["Output filename changed to: " ++ f2])
  else (f, [])

/-! ### Credential resolution (`get_api_key_from_keeper`, `get_api_key_from_keychain`, `main` lines 166-172) -/

/-- A custom field of a Keeper record, as produced by `record.to_dictionary()`:
its declared type and its value (the script stringifies the value, so we model
it as a string; a missing value is the empty string, which is falsy). -/
structure CustomField where
  type : String
  value : String
deriving DecidableEq

/-- A Keeper vault record as the script reads it: primary password field,
free-text notes field, custom fields, and the record type (used only in the
failure message).  Missing/empty fields are empty strings (falsy in Python). -/
structure KeeperRecord where
  password : String
  notes : String
  custom_fields : List CustomField
  record_type : String
deriving DecidableEq

/-- The external Keeper world: whether importing the SDK succeeded, whether
the config file exists, whether `api.login` succeeds, and what
`api.get_record` returns for each record UID (`none` models a falsy result). -/
structure KeeperEnv where
  keeperAvailable : Bool
  configExists : Bool
  loginOk : Bool
  record : String → Option KeeperRecord

/-- The external macOS keychain: `security find-generic-password` either
prints a secret on stdout or fails with some stderr text. -/
structure KeychainEnv where
  lookup : String → String → Except String String

/-- Failure taxonomy of credential resolution (section 7 of the design). -/
inductive CredError where
  | vaultUnavailableSdk
  | vaultUnavailableConfig
  | authenticationFailed
  | recordNotFound (uid : String)
  | credentialNotFound (recordType : String)
  | keychainFailed (stderr : String)
  | missingCredentialSource
deriving DecidableEq

/-- The errors the spec groups under `VaultUnavailable`: the vault SDK is not
installed, or its config file is missing. -/
def CredError.isVaultUnavailable : CredError → Bool
  | .vaultUnavailableSdk => true
  | .vaultUnavailableConfig => true
  | _ => false

/-- The loop test on line 67: the field type is one of the free-text types
and the field value is truthy. -/
def isFreeTextPopulated (f : CustomField) : Prop :=
  (f.type = "note" ∨ f.type = "text" ∨ f.type = "multiline") ∧ f.value ≠ ""

instance (f : CustomField) : Decidable (isFreeTextPopulated f) := by
  unfold isFreeTextPopulated; infer_instance

/-- The loop on lines 64-68: return the value of the first custom field whose
type is `note`, `text` or `multiline` and whose value is truthy. -/
def firstFreeTextCustom : List CustomField → Option String
  | [] => none
  | f :: rest =>
    if isFreeTextPopulated f then some f.value else firstFreeTextCustom rest

/-- Lines 36-70: fetch the API key from Keeper.  Fails if the SDK is missing,
the config file is missing, or login fails; otherwise extracts the secret from
the first populated of password, stripped notes, and free-text custom field,
failing with `credentialNotFound` when none is populated. -/
def get_api_key_from_keeper (env : KeeperEnv) (record_uid : String) :
    Except CredError String :=
  if !env.keeperAvailable then .error .vaultUnavailableSdk
  else if !env.configExists then .error .vaultUnavailableConfig
  else if !env.loginOk then .error .authenticationFailed
  else
    match env.record record_uid with
    | none => .error (.recordNotFound record_uid)
    | some record =>
      if record.password ≠ "" then .ok record.password
      else if record.notes ≠ "" ∧ pyStrip record.notes ≠ "" then .ok (pyStrip record.notes)
      else
        match firstFreeTextCustom record.custom_fields with
        | some v => .ok v
        | none => .error (.credentialNotFound record.record_type)

/-- Lines 23-34: fetch the API key from the macOS keychain via `security`,
stripping stdout on success and reporting stripped stderr on failure. -/
def get_api_key_from_keychain (env : KeychainEnv) (username service_name : String) :
    Except CredError String :=
  match env.lookup username service_name with
  | .ok stdout => .ok (pyStrip stdout)
  | .error stderr => .error (.keychainFailed (pyStrip stderr))

/-- The parsed command-line arguments of `main`.  `argparse` yields `none` for
an omitted optional flag; a flag given an empty string is `some ""` (falsy). -/
structure Args where
  username : Option String
  keychain_service : Option String
  keeper_uid : Option String
  origin : String
  destination : String
  output : Option String

/-- Python truthiness of an optional string argument. -/
def optTruthy : Option String → Bool
  | none => false
  | some s => s ≠ ""

/-- Lines 166-172 of `main`: dispatch on the credential source.  Returns the
resolution result together with two flags recording whether the Keeper path
and the keychain path were invoked. -/
def resolve_api_key (kenv : KeeperEnv) (cenv : KeychainEnv) (args : Args) :
    Except CredError String × Bool × Bool :=
  if optTruthy args.keeper_uid then
    (get_api_key_from_keeper kenv (args.keeper_uid.getD ""), true, false)
  else if optTruthy args.username && optTruthy args.keychain_service then
    (get_api_key_from_keychain cenv (args.username.getD "") (args.keychain_service.getD ""),
     false, true)
  else
    (.error .missingCredentialSource, false, false)

/-! ### Route fetch and map rendering (`get_route_and_distance`, `generate_map_with_route`) -/

/-- The two HTTP endpoints the pipeline talks to. -/
inductive Stage where
  | directions
  | staticMap
deriving DecidableEq

/-- The request built on lines 74-80: query parameters plus the `timeout=30`
keyword argument of `requests.get`. -/
structure DirectionsRequest where
  origin : String
  destination : String
  mode : String
  units : String
  key : String
  timeout : Nat
deriving DecidableEq

/-- Line 74-80: the directions request for a given key, origin and
destination. -/
def mkDirectionsRequest (api_key origin destination : String) : DirectionsRequest :=
  { origin := origin, destination := destination, mode := "driving",
    units := "metric", key := api_key, timeout := 30 }

/-- JSON object `legs[i].distance`: the metre count is a JSON number, modelled
as a rational. -/
structure DistanceField where
  value : ℚ
deriving DecidableEq

/-- JSON object `legs[i].duration`. -/
structure DurationField where
  text : String
deriving DecidableEq

/-- One leg of a route from the directions response. -/
structure Leg where
  distance : DistanceField
  duration : DurationField
deriving DecidableEq

/-- JSON object `routes[i].overview_polyline`. -/
structure Polyline where
  points : String
deriving DecidableEq

/-- One route from the directions response. -/
structure Route where
  legs : List Leg
  overview_polyline : Polyline
deriving DecidableEq

/-- The parsed JSON body of a directions response; a missing `routes` key is
the empty list (both are falsy in the line 86 test). -/
structure DirectionsData where
  routes : List Route
deriving DecidableEq

/-- An HTTP response from the directions endpoint: status code, raw text
(used in error messages) and parsed JSON body. -/
structure DirectionsResponse where
  status : Nat
  text : String
  data : DirectionsData
deriving DecidableEq

/-- Outcome of the directions fetch: either the 30-unit timeout fires or a
response arrives. -/
inductive DirectionsOutcome where
  | timeout
  | response (r : DirectionsResponse)

/-- The request built on lines 98-104. -/
structure StaticMapRequest where
  size : String
  scale : Nat
  maptype : String
  path : String
  key : String
  timeout : Nat
deriving DecidableEq

/-- Lines 98-104: the static-map request for a given key and encoded
polyline. -/
def mkStaticMapRequest (api_key polyline : String) : StaticMapRequest :=
  { size := "1200x800", scale := 2, maptype := "roadmap",
    path := "enc:" ++ polyline, key := api_key, timeout := 30 }

/-- An HTTP response from the static-map endpoint: status, text, and raw
image bytes. -/
structure ImageResponse where
  status : Nat
  text : String
  content : List Nat
deriving DecidableEq

/-- Outcome of the static-map fetch. -/
inductive ImageOutcome where
  | timeout
  | response (r : ImageResponse)

/-- Failure taxonomy of the route-to-document pipeline (section 7 of the
design).  `serviceTimeout` is the `requests` timeout exception propagating
uncaught; `legIndexError` is the uncaught IndexError a route with no legs
would raise on line 89 (outside every claim). -/
inductive PipeError where
  | serviceError (stage : Stage) (status : Nat) (body : String)
  | serviceTimeout (stage : Stage)
  | noRouteFound (rawResponse : DirectionsData)
  | legIndexError
  | documentWriteError
deriving DecidableEq

/-- The errors the spec groups under `ServiceError`: a non-success HTTP
status, or the bounded network timeout surfacing. -/
def PipeError.isServiceVariant : PipeError → Bool
  | .serviceError _ _ _ => true
  | .serviceTimeout _ => true
  | _ => false

/-- Lines 72-94: given the outcome of the directions fetch, either fail
(timeout, non-200 status with the status and body, or zero routes with the
raw response) or return distance in kilometres, duration text and encoded
polyline taken from the first route and its first leg. -/
def get_route_and_distance (outcome : DirectionsOutcome) :
    Except PipeError (ℚ × String × String) :=
  match outcome with
  | .timeout => .error (.serviceTimeout .directions)
  | .response r =>
    if r.status ≠ 200 then .error (.serviceError .directions r.status r.text)
    else
      match r.data.routes with
      | [] => .error (.noRouteFound r.data)
      | route :: _ =>
        match route.legs with
        | [] => .error .legIndexError
        | leg :: _ =>
          .ok (leg.distance.value / 1000, leg.duration.text, route.overview_polyline.points)

/-- Lines 96-109: given the outcome of the static-map fetch, either fail
(timeout or non-200 status with the status and body) or return the raw image
bytes. -/
def generate_map_with_route (outcome : ImageOutcome) : Except PipeError (List Nat) :=
  match outcome with
  | .timeout => .error (.serviceTimeout .staticMap)
  | .response r =>
    if r.status ≠ 200 then .error (.serviceError .staticMap r.status r.text)
    else .ok r.content

/-! ### The document pipeline (`create_pdf`) with an observable event trace -/

/-- The external world of one `create_pdf` run: what each endpoint answers to
each request, whether decoding/saving/embedding the fetched image bytes
succeeds (lines 140-143), and whether the final `pdf.output` write succeeds
(line 153). -/
structure Env where
  directions : DirectionsRequest → DirectionsOutcome
  staticMap : StaticMapRequest → ImageOutcome
  embedOk : List Nat → Bool
  pdfOutputOk : Bool

/-- Observable side effects of a run, in order. -/
inductive Event where
  | directionsCall (req : DirectionsRequest)
  | staticMapCall (req : StaticMapRequest)
  | tempFileCreated (nm : String)
  | tempFileDeleted (nm : String)
  | pdfWritten (file : String)
deriving DecidableEq

/-- Discriminator: is this event a static-map HTTP call? -/
def Event.isStaticCall : Event → Bool
  | .staticMapCall _ => true
  | _ => false

/-- Discriminator: is this event the creation of a temporary image file? -/
def Event.isTempCreate : Event → Bool
  | .tempFileCreated _ => true
  | _ => false

/-- Discriminator: is this event the final PDF write? -/
def Event.isPdfWrite : Event → Bool
  | .pdfWritten _ => true
  | _ => false

/-- The temporary files a trace created but never deleted. -/
def leftoverTempFiles (trace : List Event) : List String :=
  (trace.filterMap fun e =>
    match e with
    | .tempFileCreated nm => some nm
    | _ => none).filter fun nm =>
      !(trace.any fun e =>
        match e with
        | .tempFileDeleted m => m == nm
        | _ => false)

/-- The route facts `create_pdf` lays out in the document (lines 117-137,
153): addresses, distance in kilometres, duration text, the two cost
estimates, and the output file written. -/
structure PdfData where
  origin : String
  destination : String
  distanceKm : ℚ
  durationText : String
  oneWayCost : ℚ
  roundTripCost : ℚ
  outputFile : String
deriving DecidableEq

/-- Lines 111-154: the full pipeline for one run.  `autoName` stands for the
timestamp-derived default filename and `tempName` for the name the OS gives
the `NamedTemporaryFile`.  The temp file is created with `delete=False` and
unlinked on line 144 only after the `with` block exits normally, so a failure
while decoding, saving or embedding the image (modelled by `embedOk`) leaves
the file behind. -/
def create_pdf (env : Env) (api_key origin destination : String)
    (output_file : Option String) (autoName tempName : String) :
    Except PipeError PdfData × List Event :=
  let out := output_file.getD autoName
  let dreq := mkDirectionsRequest api_key origin destination
  match get_route_and_distance (env.directions dreq) with
  | .error e => (.error e, [.directionsCall dreq])
  | .ok (distance, duration, polyline) =>
    let price_per_km : ℚ := 0.3
    let estimated_cost := distance * price_per_km
    let return_trip_cost := estimated_cost * 2
    let sreq := mkStaticMapRequest api_key polyline
    match generate_map_with_route (env.staticMap sreq) with
    | .error e => (.error e, [.directionsCall dreq, .staticMapCall sreq])
    | .ok content =>
      if env.embedOk content then
        if env.pdfOutputOk then
          (.ok { origin := origin, destination := destination,
                 distanceKm := distance, durationText := duration,
                 oneWayCost := estimated_cost, roundTripCost := return_trip_cost,
                 outputFile := out },
           [.directionsCall dreq, .staticMapCall sreq,
            .tempFileCreated tempName, .tempFileDeleted tempName, .pdfWritten out])
        else
          (.error .documentWriteError,
           [.directionsCall dreq, .staticMapCall sreq,
            .tempFileCreated tempName, .tempFileDeleted tempName])
      else
        (.error .documentWriteError,
         [.directionsCall dreq, .staticMapCall sreq, .tempFileCreated tempName])

/-! ### The whole program (`main`) -/

/-- Either a credential-resolution failure or a pipeline failure. -/
inductive ProgError where
  | cred (e : CredError)
  | pipe (e : PipeError)

/-- Line 177-178: the interactive prompt result, stripped, empty becoming
`None`. -/
def pyStripOrNone (s : String) : Option String :=
  if pyStrip s = "" then none else some (pyStrip s)

/-- Lines 174-185: choose the output filename (flag, else prompt) and
validate/coerce its extension; returns the effective optional filename and
the notices printed. -/
def chooseAndValidateOutput (argOutput : Option String) (promptInput : String) :
    Option String × List String :=
  let o1 : Option String :=
    match argOutput with
    | none => pyStripOrNone promptInput
    | some s => if s = "" then pyStripOrNone promptInput else some s
  match o1 with
  | none => (none, [])
  | some f =>
    let v := validateOutput f
    (some v.1, v.2)

/-- Lines 156-187: resolve the credential, choose and validate the output
filename, then run `create_pdf`.  Returns the result, the printed notices and
the event trace (all network and file events happen inside `create_pdf`). -/
def main_run (kenv : KeeperEnv) (cenv : KeychainEnv) (env : Env) (args : Args)
    (promptInput autoName tempName : String) :
    Except ProgError PdfData × List String × List Event :=
  match (resolve_api_key kenv cenv args).1 with
  | .error e => (.error (.cred e), [], [])
  | .ok api_key =>
    let ov := chooseAndValidateOutput args.output promptInput
    let r := create_pdf env api_key args.origin args.destination ov.1 autoName tempName
    (r.1.mapError .pipe, ov.2, r.2)

/-! ### Concrete environments used to evaluate the model on closed inputs -/

/-- A Keeper world holding one record whose password field is populated. -/
def kenvEx : KeeperEnv where
  keeperAvailable := true
  configExists := true
  loginOk := true
  record := fun uid =>
    if uid = "UID1" then
      some { password := "s3cret", notes := "", custom_fields := [], record_type := "login" }
    else none

/-- A keychain world whose lookup always succeeds. -/
def cenvEx : KeychainEnv where
  lookup := fun _ _ => .ok " chainkey "

/-- A Keeper world exercising the notes, custom-field and not-found branches. -/
def kenvBranches : KeeperEnv where
  keeperAvailable := true
  configExists := true
  loginOk := true
  record := fun uid =>
    if uid = "R1" then
      some { password := "", notes := "  note-secret  ", custom_fields := [],
             record_type := "login" }
    else if uid = "R2" then
      some { password := "", notes := "   ",
             custom_fields := [{ type := "url", value := "x" },
                               { type := "note", value := "custom-secret" }],
             record_type := "encryptedNotes" }
    else if uid = "R3" then
      some { password := "", notes := "",
             custom_fields := [{ type := "note", value := "" }],
             record_type := "encryptedNotes" }
    else none

/-- A Keeper world in which importing the SDK failed. -/
def kenvNoSdk : KeeperEnv where
  keeperAvailable := false
  configExists := true
  loginOk := true
  record := fun _ => none

/-- A pipeline world that never answers (both endpoints time out). -/
def envEx0 : Env where
  directions := fun _ => .timeout
  staticMap := fun _ => .timeout
  embedOk := fun _ => true
  pdfOutputOk := true

/-- A directions world returning 200 with an empty routes list. -/
def envNoRoute : Env where
  directions := fun _ => .response { status := 200, text := "", data := { routes := [] } }
  staticMap := fun _ => .timeout
  embedOk := fun _ => true
  pdfOutputOk := true

/-- A directions world answering 500. -/
def envDir500 : Env where
  directions := fun _ => .response { status := 500, text := "boom", data := { routes := [] } }
  staticMap := fun _ => .timeout
  embedOk := fun _ => true
  pdfOutputOk := true

/-- A one-leg route of 2500 metres used by several worlds. -/
def okRoute : Route where
  legs := [{ distance := { value := 2500 }, duration := { text := "3 mins" } }]
  overview_polyline := { points := "abc" }

/-- Directions succeed, the static-map endpoint answers 403. -/
def envStatic500 : Env where
  directions := fun _ => .response { status := 200, text := "", data := { routes := [okRoute] } }
  staticMap := fun _ => .response { status := 403, text := "denied", content := [] }
  embedOk := fun _ => true
  pdfOutputOk := true

/-- The directions fetch times out. -/
def envDirTimeout : Env where
  directions := fun _ => .timeout
  staticMap := fun _ => .timeout
  embedOk := fun _ => true
  pdfOutputOk := true

/-- Directions succeed, the static-map fetch times out. -/
def envStaticTimeout : Env where
  directions := fun _ => .response { status := 200, text := "", data := { routes := [okRoute] } }
  staticMap := fun _ => .timeout
  embedOk := fun _ => true
  pdfOutputOk := true

/-- Everything succeeds. -/
def envAllOk : Env where
  directions := fun _ => .response { status := 200, text := "", data := { routes := [okRoute] } }
  staticMap := fun _ => .response { status := 200, text := "", content := [9, 9] }
  embedOk := fun _ => true
  pdfOutputOk := true

/-- Both fetches succeed but the returned bytes are not a decodable image, so
the embed step raises inside the temp-file block. -/
def envEmbedFails : Env where
  directions := fun _ => .response { status := 200, text := "", data := { routes := [okRoute] } }
  staticMap := fun _ => .response { status := 200, text := "", content := [0, 1, 2] }
  embedOk := fun _ => false
  pdfOutputOk := true

/-! ### Helper lemmas -/

/-- Appending ".pdf" to a non-empty character list yields a name whose Python
suffix is ".pdf". -/
theorem pySuffix_mk_pdf (l : List Char) (hl : l ≠ []) :
    pySuffix (String.mk l ++ ".pdf") = ".pdf" := by
  have hdata : (String.mk l ++ ".pdf").toList = l ++ ['.', 'p', 'd', 'f'] := rfl
  have hpos : 0 < l.length := List.length_pos.mpr hl
  have hrev : (l ++ ['.', 'p', 'd', 'f']).reverse = 'f' :: 'd' :: 'p' :: '.' :: l.reverse := by
    simp
  have htw : List.takeWhile (fun c => decide (c ≠ '.')) ('f' :: 'd' :: 'p' :: '.' :: l.reverse)
      = ['f', 'd', 'p'] := by
    simp [List.takeWhile]
  simp only [pySuffix, hdata, hrev, htw]
  rw [if_pos]
  · rfl
  · refine ⟨by decide, ?_⟩
    simp [List.length_append]
    omega

/-- A non-empty Python suffix is shorter than the whole name. -/
theorem pySuffix_length_lt (name : String) (h : pySuffix name ≠ "") :
    0 < (pySuffix name).toList.length ∧
      (pySuffix name).toList.length < name.toList.length := by
  unfold pySuffix at h ⊢
  by_cases hc : 0 < (List.takeWhile (fun c => decide (c ≠ '.')) name.toList.reverse).length ∧
      (List.takeWhile (fun c => decide (c ≠ '.')) name.toList.reverse).length + 2 ≤
        name.toList.length
  · simp only [if_pos hc] at h ⊢
    have hmk : (String.mk ('.' ::
        (List.takeWhile (fun c => decide (c ≠ '.')) name.toList.reverse).reverse)).toList
        = '.' :: (List.takeWhile (fun c => decide (c ≠ '.')) name.toList.reverse).reverse := rfl
    rw [hmk]
    simp only [List.length_cons, List.length_reverse]
    omega
  · simp only [if_neg hc] at h
    exact absurd rfl h

/-- Coercing a non-empty name with `with_suffix(".pdf")` always produces a
name whose suffix is ".pdf". -/
theorem pySuffix_pyWithSuffix_pdf (name : String) (h : name ≠ "") :
    pySuffix (pyWithSuffix name ".pdf") = ".pdf" := by
  have hnl : name.toList ≠ [] := by
    intro hnil
    apply h
    cases name with
    | mk data =>
      cases hnil
      rfl
  have hm : name = String.mk name.toList := by
    cases name
    rfl
  unfold pyWithSuffix
  by_cases hold : pySuffix name = ""
  · rw [if_pos hold]
    calc pySuffix (name ++ ".pdf")
        = pySuffix (String.mk name.toList ++ ".pdf") := by rw [← hm]
      _ = ".pdf" := pySuffix_mk_pdf _ hnl
  · rw [if_neg hold]
    apply pySuffix_mk_pdf
    have hlt := pySuffix_length_lt name hold
    have hlp : 0 < (name.toList.take
        (name.toList.length - (pySuffix name).toList.length)).length := by
      rw [List.length_take]
      omega
    exact List.ne_nil_of_length_pos hlp

/-- The name of a coerced path is the coerced name. -/
theorem withSuffix_name (p : PurePath) (s : String) :
    (p.withSuffix s).name = pyWithSuffix p.name s := by
  simp [PurePath.withSuffix, PurePath.name]

/-- The custom-field scan returns nothing when no field qualifies. -/
theorem firstFreeTextCustom_eq_none (l : List CustomField)
    (h : ∀ g ∈ l, ¬ isFreeTextPopulated g) : firstFreeTextCustom l = none := by
  induction l with
  | nil => rfl
  | cons f rest ih =>
    rw [firstFreeTextCustom, if_neg (h f (List.mem_cons_self f rest))]
    exact ih fun g hg => h g (List.mem_cons_of_mem f hg)

/-- The custom-field scan returns the value of the first qualifying field. -/
theorem firstFreeTextCustom_first (pre : List CustomField) (f : CustomField)
    (post : List CustomField) (hpre : ∀ g ∈ pre, ¬ isFreeTextPopulated g)
    (hf : isFreeTextPopulated f) :
    firstFreeTextCustom (pre ++ f :: post) = some f.value := by
  induction pre with
  | nil =>
    rw [List.nil_append, firstFreeTextCustom, if_pos hf]
  | cons g rest ih =>
    rw [List.cons_append, firstFreeTextCustom, if_neg (hpre g (List.mem_cons_self g rest))]
    exact ih fun g2 hg2 => hpre g2 (List.mem_cons_of_mem g hg2)

/-! ### Claim theorems -/

/-- C1: whenever a truthy remote-vault record identifier is supplied, the
credential is resolved from the vault exclusively: the result equals the
Keeper lookup alone, the keychain path is never invoked (its flag is false),
and neither the keychain environment nor the local-pair arguments affect the
result. -/
theorem keeper_uid_takes_precedence (kenv : KeeperEnv) (cenv : KeychainEnv)
    (args : Args) (h : optTruthy args.keeper_uid = true) :
    resolve_api_key kenv cenv args =
      (get_api_key_from_keeper kenv (args.keeper_uid.getD ""), true, false) ∧
    ∀ (cenv₂ : KeychainEnv) (u₂ s₂ : Option String),
      resolve_api_key kenv cenv₂
        { args with username := u₂, keychain_service := s₂ } =
        resolve_api_key kenv cenv args := by
  constructor
  · simp [resolve_api_key, h]
  · intro cenv₂ u₂ s₂
    simp [resolve_api_key, h]

/-- Witness for C1 at a concrete invocation supplying both the vault
identifier and a complete local pair. -/
theorem keeper_uid_takes_precedence_witness :
    optTruthy (some "UID1") = true ∧
    resolve_api_key kenvEx cenvEx
      { username := some "alice", keychain_service := some "svc",
        keeper_uid := some "UID1", origin := "A", destination := "B", output := none } =
      (.ok "s3cret", true, false) := by
  refine ⟨by decide, ?_⟩
  have h := keeper_uid_takes_precedence kenvEx cenvEx
    { username := some "alice", keychain_service := some "svc",
      keeper_uid := some "UID1", origin := "A", destination := "B", output := none }
    (by decide)
  rw [h.1]
  rfl

/-- C2: the vault resolver returns the first populated of password, stripped
notes, and first free-text custom field, fails with `credentialNotFound` when
none is populated, and fails with a `VaultUnavailable` error when the SDK or
its config file is missing. -/
theorem keeper_secret_extraction_order (env : KeeperEnv) (uid : String) (rec : KeeperRecord) :
    ((env.keeperAvailable = false ∨ env.configExists = false) →
      ∃ e, get_api_key_from_keeper env uid = .error e ∧ e.isVaultUnavailable = true) ∧
    (env.keeperAvailable = true → env.configExists = true → env.loginOk = true →
      env.record uid = some rec →
      (rec.password ≠ "" →
        get_api_key_from_keeper env uid = .ok rec.password) ∧
      (rec.password = "" → pyStrip rec.notes ≠ "" →
        get_api_key_from_keeper env uid = .ok (pyStrip rec.notes)) ∧
      (rec.password = "" → pyStrip rec.notes = "" →
        ∀ pre f post, rec.custom_fields = pre ++ f :: post →
          (∀ g ∈ pre, ¬ isFreeTextPopulated g) → isFreeTextPopulated f →
          get_api_key_from_keeper env uid = .ok f.value) ∧
      (rec.password = "" → pyStrip rec.notes = "" →
        (∀ g ∈ rec.custom_fields, ¬ isFreeTextPopulated g) →
        get_api_key_from_keeper env uid = .error (.credentialNotFound rec.record_type))) := by
  constructor
  · intro hvu
    cases hA : env.keeperAvailable with
    | false =>
      refine ⟨.vaultUnavailableSdk, ?_, rfl⟩
      simp [get_api_key_from_keeper, hA]
    | true =>
      have hC : env.configExists = false := by
        rcases hvu with h | h
        · rw [hA] at h
          cases h
        · exact h
      refine ⟨.vaultUnavailableConfig, ?_, rfl⟩
      simp [get_api_key_from_keeper, hA, hC]
  · intro hA hC hL hrec
    refine ⟨?_, ?_, ?_, ?_⟩
    · intro hpw
      simp [get_api_key_from_keeper, hA, hC, hL, hrec, hpw]
    · intro hpw hnotes
      have hne : rec.notes ≠ "" := by
        intro he
        apply hnotes
        rw [he]
        rfl
      simp [get_api_key_from_keeper, hA, hC, hL, hrec, hpw, hne, hnotes]
    · intro hpw hnotes pre f post hsplit hpre hf
      have hfirst := firstFreeTextCustom_first pre f post hpre hf
      simp [get_api_key_from_keeper, hA, hC, hL, hrec, hpw, hnotes, hsplit, hfirst]
    · intro hpw hnotes hall
      have hnone := firstFreeTextCustom_eq_none rec.custom_fields hall
      simp [get_api_key_from_keeper, hA, hC, hL, hrec, hpw, hnotes, hnone]

/-- Witness for C2 exercising the SDK-missing, password, notes, custom-field
and not-found branches on concrete records. -/
theorem keeper_secret_extraction_order_witness :
    (∃ e, get_api_key_from_keeper kenvNoSdk "X" = .error e ∧ e.isVaultUnavailable = true) ∧
    get_api_key_from_keeper kenvEx "UID1" = .ok "s3cret" ∧
    get_api_key_from_keeper kenvBranches "R1" = .ok "note-secret" ∧
    get_api_key_from_keeper kenvBranches "R2" = .ok "custom-secret" ∧
    get_api_key_from_keeper kenvBranches "R3" = .error (.credentialNotFound "encryptedNotes") := by
  refine ⟨?_, ?_, ?_, ?_, ?_⟩
  · exact (keeper_secret_extraction_order kenvNoSdk "X"
      { password := "", notes := "", custom_fields := [], record_type := "" }).1
      (Or.inl rfl)
  · exact ((keeper_secret_extraction_order kenvEx "UID1"
      { password := "s3cret", notes := "", custom_fields := [], record_type := "login" }).2
      rfl rfl rfl rfl).1 (by decide)
  · have h := ((keeper_secret_extraction_order kenvBranches "R1"
      { password := "", notes := "  note-secret  ", custom_fields := [],
        record_type := "login" }).2 rfl rfl rfl rfl).2.1 rfl (by decide)
    rw [h]
    rfl
  · exact ((keeper_secret_extraction_order kenvBranches "R2"
      { password := "", notes := "   ",
        custom_fields := [{ type := "url", value := "x" },
                          { type := "note", value := "custom-secret" }],
        record_type := "encryptedNotes" }).2 rfl rfl rfl rfl).2.2.1 rfl (by decide)
      [{ type := "url", value := "x" }] { type := "note", value := "custom-secret" } []
      rfl (by decide) (by decide)
  · exact ((keeper_secret_extraction_order kenvBranches "R3"
      { password := "", notes := "",
        custom_fields := [{ type := "note", value := "" }],
        record_type := "encryptedNotes" }).2 rfl rfl rfl rfl).2.2.2 rfl rfl (by decide)

/-- C3: on a successful directions response reporting m metres, the pipeline
computes distanceKm = m / 1000 exactly, one-way cost = distanceKm * 0.3, and
round-trip cost = one-way cost * 2. -/
theorem distance_and_cost_formulas (env : Env) (api_key origin destination : String)
    (output_file : Option String) (autoName tempName : String)
    (r : DirectionsResponse) (route : Route) (rs : List Route) (leg : Leg) (ls : List Leg)
    (s : ImageResponse)
    (hd : env.directions (mkDirectionsRequest api_key origin destination) = .response r)
    (h200 : r.status = 200)
    (hroutes : r.data.routes = route :: rs)
    (hlegs : route.legs = leg :: ls)
    (hs : env.staticMap (mkStaticMapRequest api_key route.overview_polyline.points)
      = .response s)
    (hs200 : s.status = 200)
    (hembed : env.embedOk s.content = true)
    (hpdf : env.pdfOutputOk = true) :
    ∃ pd : PdfData,
      (create_pdf env api_key origin destination output_file autoName tempName).1 = .ok pd ∧
      pd.distanceKm = leg.distance.value / 1000 ∧
      pd.oneWayCost = pd.distanceKm * 0.3 ∧
      pd.roundTripCost = pd.oneWayCost * 2 := by
  have hg : get_route_and_distance
      (env.directions (mkDirectionsRequest api_key origin destination))
      = .ok (leg.distance.value / 1000, leg.duration.text, route.overview_polyline.points) := by
    rw [hd]
    simp [get_route_and_distance, h200, hroutes, hlegs]
  have hm : generate_map_with_route
      (env.staticMap (mkStaticMapRequest api_key route.overview_polyline.points))
      = .ok s.content := by
    rw [hs]
    simp [generate_map_with_route, hs200]
  refine ⟨{ origin := origin, destination := destination,
            distanceKm := leg.distance.value / 1000,
            durationText := leg.duration.text,
            oneWayCost := leg.distance.value / 1000 * 0.3,
            roundTripCost := leg.distance.value / 1000 * 0.3 * 2,
            outputFile := output_file.getD autoName }, ?_, rfl, rfl, rfl⟩
  simp [create_pdf, hg, hm, hembed, hpdf]

/-- Witness for C3 on a 2500-metre route with every stage succeeding. -/
theorem distance_and_cost_formulas_witness :
    ∃ pd : PdfData,
      (create_pdf envAllOk "k" "A" "B" none "a.pdf" "t.png").1 = .ok pd ∧
      pd.distanceKm = (2500 : ℚ) / 1000 ∧
      pd.oneWayCost = pd.distanceKm * 0.3 ∧
      pd.roundTripCost = pd.oneWayCost * 2 :=
  distance_and_cost_formulas envAllOk "k" "A" "B" none "a.pdf" "t.png"
    { status := 200, text := "", data := { routes := [okRoute] } }
    okRoute [] { distance := { value := 2500 }, duration := { text := "3 mins" } } []
    { status := 200, text := "", content := [9, 9] }
    rfl rfl rfl rfl rfl rfl rfl rfl

/-- C4: a 200 directions response with an empty routes list makes the pipeline
fail with `noRouteFound` carrying the raw response data, and no static-map
request is ever made. -/
theorem no_route_found_stops_pipeline (env : Env) (api_key origin destination : String)
    (output_file : Option String) (autoName tempName : String) (r : DirectionsResponse)
    (hd : env.directions (mkDirectionsRequest api_key origin destination) = .response r)
    (h200 : r.status = 200) (hroutes : r.data.routes = []) :
    (create_pdf env api_key origin destination output_file autoName tempName).1 =
      .error (.noRouteFound r.data) ∧
    (create_pdf env api_key origin destination output_file autoName tempName).2 =
      [.directionsCall (mkDirectionsRequest api_key origin destination)] ∧
    ((create_pdf env api_key origin destination output_file autoName tempName).2.any
      Event.isStaticCall) = false := by
  have hg : get_route_and_distance
      (env.directions (mkDirectionsRequest api_key origin destination))
      = .error (.noRouteFound r.data) := by
    rw [hd]
    simp [get_route_and_distance, h200, hroutes]
  refine ⟨?_, ?_, ?_⟩ <;> simp [create_pdf, hg, Event.isStaticCall]

/-- Witness for C4 on a concrete empty-routes response. -/
theorem no_route_found_stops_pipeline_witness :
    (create_pdf envNoRoute "k" "A" "B" none "a.pdf" "t.png").1 =
      .error (.noRouteFound { routes := [] }) ∧
    ((create_pdf envNoRoute "k" "A" "B" none "a.pdf" "t.png").2.any
      Event.isStaticCall) = false := by
  have h := no_route_found_stops_pipeline envNoRoute "k" "A" "B" none "a.pdf" "t.png"
    { status := 200, text := "", data := { routes := [] } } rfl rfl rfl
  exact ⟨h.1, h.2.2⟩

/-- C5: a non-200 status from either endpoint aborts the pipeline with a
`serviceError` carrying the original status and body: a directions failure
leaves only the directions call in the trace, and a static-map failure leaves
exactly the two calls with no temp file created and no PDF written. -/
theorem service_error_stops_pipeline (env : Env) (api_key origin destination : String)
    (output_file : Option String) (autoName tempName : String) :
    (∀ r : DirectionsResponse,
      env.directions (mkDirectionsRequest api_key origin destination) = .response r →
      r.status ≠ 200 →
      (create_pdf env api_key origin destination output_file autoName tempName).1 =
        .error (.serviceError .directions r.status r.text) ∧
      (create_pdf env api_key origin destination output_file autoName tempName).2 =
        [.directionsCall (mkDirectionsRequest api_key origin destination)]) ∧
    (∀ (dist : ℚ) (dur poly : String) (s : ImageResponse),
      get_route_and_distance (env.directions (mkDirectionsRequest api_key origin destination))
        = .ok (dist, dur, poly) →
      env.staticMap (mkStaticMapRequest api_key poly) = .response s →
      s.status ≠ 200 →
      (create_pdf env api_key origin destination output_file autoName tempName).1 =
        .error (.serviceError .staticMap s.status s.text) ∧
      (create_pdf env api_key origin destination output_file autoName tempName).2 =
        [.directionsCall (mkDirectionsRequest api_key origin destination),
         .staticMapCall (mkStaticMapRequest api_key poly)] ∧
      ((create_pdf env api_key origin destination output_file autoName tempName).2.any
        Event.isTempCreate) = false ∧
      ((create_pdf env api_key origin destination output_file autoName tempName).2.any
        Event.isPdfWrite) = false) := by
  constructor
  · intro r hd hstatus
    have hg : get_route_and_distance
        (env.directions (mkDirectionsRequest api_key origin destination))
        = .error (.serviceError .directions r.status r.text) := by
      rw [hd]
      simp [get_route_and_distance, hstatus]
    exact ⟨by simp [create_pdf, hg], by simp [create_pdf, hg]⟩
  · intro dist dur poly s hg hs hstatus
    have hm : generate_map_with_route (env.staticMap (mkStaticMapRequest api_key poly))
        = .error (.serviceError .staticMap s.status s.text) := by
      rw [hs]
      simp [generate_map_with_route, hstatus]
    refine ⟨?_, ?_, ?_, ?_⟩ <;>
      simp [create_pdf, hg, hm, Event.isTempCreate, Event.isPdfWrite, Event.isStaticCall]

/-- Witness for C5: a 500 from the directions endpoint and a 403 from the
static-map endpoint, each carrying its status and body. -/
theorem service_error_stops_pipeline_witness :
    (create_pdf envDir500 "k" "A" "B" none "a.pdf" "t.png").1 =
      .error (.serviceError .directions 500 "boom") ∧
    (create_pdf envStatic500 "k" "A" "B" none "a.pdf" "t.png").1 =
      .error (.serviceError .staticMap 403 "denied") ∧
    ((create_pdf envStatic500 "k" "A" "B" none "a.pdf" "t.png").2.any
      Event.isTempCreate) = false := by
  have h1 := (service_error_stops_pipeline envDir500 "k" "A" "B" none "a.pdf" "t.png").1
    { status := 500, text := "boom", data := { routes := [] } } rfl (by decide)
  have h2 := (service_error_stops_pipeline envStatic500 "k" "A" "B" none "a.pdf" "t.png").2
    (2500 / 1000) "3 mins" "abc" { status := 403, text := "denied", content := [] }
    rfl rfl (by decide)
  exact ⟨h1.1, h2.1, h2.2.2.1⟩

/-- C6: every directions or static-map request the pipeline ever issues
carries the 30-unit timeout, and a timeout at either fetch surfaces as a
service-variant error of the run rather than being swallowed. -/
theorem network_timeout_bounded_and_surfaced (env : Env)
    (api_key origin destination : String)
    (output_file : Option String) (autoName tempName : String) :
    (∀ req, Event.directionsCall req ∈
        (create_pdf env api_key origin destination output_file autoName tempName).2 →
      req.timeout = 30) ∧
    (∀ req, Event.staticMapCall req ∈
        (create_pdf env api_key origin destination output_file autoName tempName).2 →
      req.timeout = 30) ∧
    (env.directions (mkDirectionsRequest api_key origin destination) = .timeout →
      (create_pdf env api_key origin destination output_file autoName tempName).1 =
        .error (.serviceTimeout .directions) ∧
      (PipeError.serviceTimeout .directions).isServiceVariant = true) ∧
    (∀ (dist : ℚ) (dur poly : String),
      get_route_and_distance (env.directions (mkDirectionsRequest api_key origin destination))
        = .ok (dist, dur, poly) →
      env.staticMap (mkStaticMapRequest api_key poly) = .timeout →
      (create_pdf env api_key origin destination output_file autoName tempName).1 =
        .error (.serviceTimeout .staticMap) ∧
      (PipeError.serviceTimeout .staticMap).isServiceVariant = true) := by
  refine ⟨?_, ?_, ?_, ?_⟩
  · intro req hmem
    rcases hgo : get_route_and_distance
        (env.directions (mkDirectionsRequest api_key origin destination)) with e | x
    · simp [create_pdf, hgo] at hmem
      simp [hmem, mkDirectionsRequest, mkStaticMapRequest]
    · obtain ⟨dist, dur, poly⟩ := x
      rcases hgm : generate_map_with_route
          (env.staticMap (mkStaticMapRequest api_key poly)) with e2 | content
      · simp [create_pdf, hgo, hgm] at hmem
        simp [hmem, mkDirectionsRequest, mkStaticMapRequest]
      · by_cases hE : env.embedOk content = true
        · by_cases hP : env.pdfOutputOk = true
          · simp [create_pdf, hgo, hgm, hE, hP] at hmem
            simp [hmem, mkDirectionsRequest, mkStaticMapRequest]
          · simp [create_pdf, hgo, hgm, hE, hP] at hmem
            simp [hmem, mkDirectionsRequest, mkStaticMapRequest]
        · simp [create_pdf, hgo, hgm, hE] at hmem
          simp [hmem, mkDirectionsRequest, mkStaticMapRequest]
  · intro req hmem
    rcases hgo : get_route_and_distance
        (env.directions (mkDirectionsRequest api_key origin destination)) with e | x
    · simp [create_pdf, hgo] at hmem
    · obtain ⟨dist, dur, poly⟩ := x
      rcases hgm : generate_map_with_route
          (env.staticMap (mkStaticMapRequest api_key poly)) with e2 | content
      · simp [create_pdf, hgo, hgm] at hmem
        simp [hmem, mkDirectionsRequest, mkStaticMapRequest]
      · by_cases hE : env.embedOk content = true
        · by_cases hP : env.pdfOutputOk = true
          · simp [create_pdf, hgo, hgm, hE, hP] at hmem
            simp [hmem, mkDirectionsRequest, mkStaticMapRequest]
          · simp [create_pdf, hgo, hgm, hE, hP] at hmem
            simp [hmem, mkDirectionsRequest, mkStaticMapRequest]
        · simp [create_pdf, hgo, hgm, hE] at hmem
          simp [hmem, mkDirectionsRequest, mkStaticMapRequest]
  · intro hd
    have hg : get_route_and_distance
        (env.directions (mkDirectionsRequest api_key origin destination))
        = .error (.serviceTimeout .directions) := by
      rw [hd]
      rfl
    exact ⟨by simp [create_pdf, hg], rfl⟩
  · intro dist dur poly hg hs
    have hm : generate_map_with_route (env.staticMap (mkStaticMapRequest api_key poly))
        = .error (.serviceTimeout .staticMap) := by
      rw [hs]
      rfl
    exact ⟨by simp [create_pdf, hg, hm], rfl⟩

/-- Witness for C6: both request constructors carry timeout 30, and concrete
timeout worlds surface the timeout error at each stage. -/
theorem network_timeout_bounded_and_surfaced_witness :
    (mkDirectionsRequest "k" "A" "B").timeout = 30 ∧
    (mkStaticMapRequest "k" "abc").timeout = 30 ∧
    (create_pdf envDirTimeout "k" "A" "B" none "a.pdf" "t.png").1 =
      .error (.serviceTimeout .directions) ∧
    (create_pdf envStaticTimeout "k" "A" "B" none "a.pdf" "t.png").1 =
      .error (.serviceTimeout .staticMap) := by
  have h1 := network_timeout_bounded_and_surfaced envDirTimeout "k" "A" "B" none "a.pdf" "t.png"
  have h2 := network_timeout_bounded_and_surfaced envStaticTimeout "k" "A" "B" none "a.pdf" "t.png"
  refine ⟨?_, ?_, ?_, ?_⟩
  · exact h1.1 (mkDirectionsRequest "k" "A" "B") (by decide)
  · exact h2.2.1 (mkStaticMapRequest "k" "abc") (by decide)
  · exact (h1.2.2.1 rfl).1
  · exact (h2.2.2.2 (2500 / 1000) "3 mins" "abc" rfl rfl).1

/-- C7 fails on the code: when decoding or embedding the fetched image raises
inside the `with` block, the `delete=False` temp file is closed but never
unlinked (line 144 is skipped), so a leftover temporary image file remains on
disk; this theorem evaluates the model at such a failing run. -/
theorem temp_file_leaked_on_embed_failure :
    (create_pdf envEmbedFails "k" "A" "B" (some "out.pdf") "a.pdf" "tmp123.png").1
      = .error .documentWriteError ∧
    ((create_pdf envEmbedFails "k" "A" "B" (some "out.pdf") "a.pdf" "tmp123.png").2.any
      Event.isTempCreate) = true ∧
    leftoverTempFiles
      (create_pdf envEmbedFails "k" "A" "B" (some "out.pdf") "a.pdf" "tmp123.png").2
      = ["tmp123.png"] := by
  refine ⟨rfl, rfl, rfl⟩

/-- C8: when the vault identifier is falsy and the local pair is incomplete,
the whole run fails with `missingCredentialSource`, prints nothing, and makes
no network call (the event trace is empty). -/
theorem missing_credential_source_fails_first (kenv : KeeperEnv) (cenv : KeychainEnv)
    (env : Env) (args : Args) (promptInput autoName tempName : String)
    (h1 : optTruthy args.keeper_uid = false)
    (h2 : (optTruthy args.username && optTruthy args.keychain_service) = false) :
    main_run kenv cenv env args promptInput autoName tempName =
      (.error (.cred .missingCredentialSource), [], []) := by
  simp [main_run, resolve_api_key, h1, h2]

/-- Witness for C8 at a concrete invocation supplying only a username. -/
theorem missing_credential_source_fails_first_witness :
    optTruthy (none : Option String) = false ∧
    (optTruthy (some "alice") && optTruthy (none : Option String)) = false ∧
    main_run kenvEx cenvEx envEx0
      { username := some "alice", keychain_service := none, keeper_uid := none,
        origin := "A", destination := "B", output := none } "" "auto.pdf" "tmp.png" =
      (.error (.cred .missingCredentialSource), [], []) := by
  refine ⟨by decide, by decide, ?_⟩
  exact missing_credential_source_fails_first kenvEx cenvEx envEx0 _ "" "auto.pdf" "tmp.png"
    (by decide) (by decide)

/-- C9: a supplied output path whose suffix does not lowercase to ".pdf" is
coerced with `with_suffix(".pdf")` — so the effective path is the supplied
path with its extension replaced by ".pdf" and really carries that suffix —
and the change notice is printed. -/
theorem output_extension_coerced (f : String)
    (hname : (parsePath f).name ≠ "")
    (h : strLower (parsePath f).suffix ≠ ".pdf") :
    (validateOutput f).1 = ((parsePath f).withSuffix ".pdf").render ∧
    ((parsePath f).withSuffix ".pdf").suffix = ".pdf" ∧
    (validateOutput f).2 =
      ["Output filename changed to: " ++ ((parsePath f).withSuffix ".pdf").render] := by
  refine ⟨?_, ?_, ?_⟩
  · simp [validateOutput, h]
  · rw [PurePath.suffix, withSuffix_name]
    exact pySuffix_pyWithSuffix_pdf _ hname
  · simp [validateOutput, h]

/-- Witness for C9 on the path "report.txt". -/
theorem output_extension_coerced_witness :
    (parsePath "report.txt").name ≠ "" ∧
    strLower (parsePath "report.txt").suffix ≠ ".pdf" ∧
    (validateOutput "report.txt").1 = "report.pdf" ∧
    (validateOutput "report.txt").2 = ["Output filename changed to: report.pdf"] := by
  have h := output_extension_coerced "report.txt" (by decide) (by decide)
  refine ⟨by decide, by decide, ?_, ?_⟩
  · rw [h.1]
    decide
  · rw [h.2.2]
    decide

/-- C10: the suffix check is case-insensitive — a path whose suffix lowercases
to ".pdf" is used unchanged and no notice is printed. -/
theorem pdf_extension_kept_unchanged (f : String)
    (h : strLower (parsePath f).suffix = ".pdf") :
    validateOutput f = (f, []) := by
  simp [validateOutput, h]

/-- Witness for C10 on the path "report.PDF". -/
theorem pdf_extension_kept_unchanged_witness :
    strLower (parsePath "report.PDF").suffix = ".pdf" ∧
    validateOutput "report.PDF" = ("report.PDF", []) :=
  ⟨by decide, pdf_extension_kept_unchanged "report.PDF" (by decide)⟩

end GenMaps
